import Mathlib

/-!
Shallow embedding of `src/tridirt/__main__.py` (exurd/tridirt), a
self-updating launcher for the TrID tools.

Modelling conventions:
* Python `datetime` values at one-second granularity (the granularity of the
  store's format `%m-%d-%Y %H:%M:%S`) are the structure `Datetime`; the
  CPython `strptime`/`strftime` behaviour for that fixed format is modelled
  character-by-character below.
* For the orchestration logic (`update_program`, `update_trid_defs`,
  `start_program`) only ordering and `timedelta` arithmetic on datetimes
  matter; there the time axis is `Int`, measured in microseconds, with
  `timedelta d` the value of Python `timedelta(days=d)`.
* Exceptions are `Except`/explicit outcome constructors; side effects
  (network requests, file writes, subprocess calls) are recorded as fields
  of explicit effect records returned by each modelled function.
-/

namespace Tridirt

/-- A Python `datetime` at second granularity (the store's format carries no
sub-second field). -/
structure Datetime where
  year : Nat
  month : Nat
  day : Nat
  hour : Nat
  minute : Nat
  second : Nat
deriving DecidableEq

/-- `datetime(1, 1, 1)`, the default in `get_datetime` ("default to use if it
fails"). -/
def sentinelDT : Datetime := ⟨1, 1, 1, 0, 0, 0⟩

/-- Gregorian leap-year test, as in CPython's `datetime` module. -/
def isLeapYear (y : Nat) : Bool :=
  decide ((y % 4 = 0 ∧ y % 100 ≠ 0) ∨ y % 400 = 0)

/-- Days in a month, as in CPython's `datetime` module. -/
def daysInMonth (y m : Nat) : Nat :=
  if m = 2 then (if isLeapYear y then 29 else 28)
  else if m = 4 ∨ m = 6 ∨ m = 9 ∨ m = 11 then 30
  else 31

/-- The range checks performed by the `datetime` constructor (MINYEAR 1,
MAXYEAR 9999) together with the field ranges of the `strptime` patterns. -/
def validDatetime (y m d h mi s : Nat) : Bool :=
  decide (1 ≤ y ∧ y ≤ 9999 ∧ 1 ≤ m ∧ m ≤ 12 ∧ 1 ≤ d ∧ d ≤ daysInMonth y m ∧
          h ≤ 23 ∧ mi ≤ 59 ∧ s ≤ 59)

/-- The decimal digit character for `n < 10`. -/
def digitChar (n : Nat) : Char := Char.ofNat (48 + n)

/-- Numeric value of a decimal digit character, `none` on a non-digit. -/
def digitVal (c : Char) : Option Nat :=
  if '0' ≤ c ∧ c ≤ '9' then some (c.toNat - 48) else none

/-- Zero-padded two-digit rendering (strftime `%m`, `%d`, `%H`, `%M`, `%S`). -/
def pad2 (n : Nat) : List Char := [digitChar (n / 10), digitChar (n % 10)]

/-- Zero-padded four-digit rendering (strftime `%Y`; CPython zero-pads for
the year range considered representable below). -/
def pad4 (n : Nat) : List Char :=
  [digitChar (n / 1000), digitChar (n / 100 % 10), digitChar (n / 10 % 10), digitChar (n % 10)]

/-- Greedy one-or-two-digit numeric field, as matched by CPython
`_strptime`'s patterns for `%m`, `%d`, `%H`, `%M`, `%S` (range checks are
performed afterwards in `strptime` below; the observable accept/reject
outcome agrees with the regex-with-ranges on every input relevant here). -/
def parseNum2 : List Char → Option (Nat × List Char)
  | c1 :: c2 :: rest =>
    match digitVal c1, digitVal c2 with
    | some d1, some d2 => some (10 * d1 + d2, rest)
    | some d1, none => some (d1, c2 :: rest)
    | none, _ => none
  | [c1] =>
    match digitVal c1 with
    | some d1 => some (d1, [])
    | none => none
  | [] => none

/-- Exactly-four-digit numeric field, as matched by CPython `_strptime`'s
pattern for `%Y`. -/
def parseNum4 : List Char → Option (Nat × List Char)
  | c1 :: c2 :: c3 :: c4 :: rest =>
    match digitVal c1, digitVal c2, digitVal c3, digitVal c4 with
    | some d1, some d2, some d3, some d4 =>
      some (1000 * d1 + 100 * d2 + 10 * d3 + d4, rest)
    | _, _, _, _ => none
  | _ => none

/-- Consume one expected literal character of the format string. -/
def expectChar (c : Char) : List Char → Option (List Char)
  | x :: rest => if x = c then some rest else none
  | [] => none

/-- `datetime.strftime(t, "%m-%d-%Y %H:%M:%S")` (`DT_FORMAT` at line 19 of
the source), for the representable range. -/
def strftime (t : Datetime) : List Char :=
  pad2 t.month ++ '-' :: (pad2 t.day ++ '-' :: (pad4 t.year ++ ' ' ::
    (pad2 t.hour ++ ':' :: (pad2 t.minute ++ ':' :: pad2 t.second))))

/-- `datetime.strptime(s, "%m-%d-%Y %H:%M:%S")`: `some` on success, `none`
where CPython raises `ValueError` (pattern mismatch, unconverted trailing
data, or constructor range failure). -/
def strptime (s0 : List Char) : Option Datetime :=
  match parseNum2 s0 with
  | none => none
  | some (m, s1) =>
  match expectChar '-' s1 with
  | none => none
  | some s2 =>
  match parseNum2 s2 with
  | none => none
  | some (d, s3) =>
  match expectChar '-' s3 with
  | none => none
  | some s4 =>
  match parseNum4 s4 with
  | none => none
  | some (y, s5) =>
  match expectChar ' ' s5 with
  | none => none
  | some s6 =>
  match parseNum2 s6 with
  | none => none
  | some (h, s7) =>
  match expectChar ':' s7 with
  | none => none
  | some s8 =>
  match parseNum2 s8 with
  | none => none
  | some (mi, s9) =>
  match expectChar ':' s9 with
  | none => none
  | some s10 =>
  match parseNum2 s10 with
  | none => none
  | some (sec, s11) =>
    if s11 = [] ∧ validDatetime y m d h mi sec = true then
      some ⟨y, m, d, h, mi, sec⟩
    else none

/-- A timestamp the store's textual format represents unambiguously on every
platform: a valid datetime whose year prints as four digits. -/
def isRepresentable (t : Datetime) : Bool :=
  validDatetime t.year t.month t.day t.hour t.minute t.second &&
    decide (1000 ≤ t.year)

/-- `get_datetime(filename)` (source lines 22-29). The file system argument
is `none` when the file does not exist, `some content` otherwise.
`Except.error ()` marks the uncaught `ValueError` that `datetime.strptime`
raises on unparseable content. -/
def get_datetime (file : Option (List Char)) : Except Unit Datetime :=
  match file with
  | none => .ok sentinelDT
  | some content =>
    if content.length = 0 then .ok sentinelDT
    else
      match strptime content with
      | some dt => .ok dt
      | none => .error ()

/-- The state-file content produced by the updater's write
(`f.write(DT_NOW.strftime(DT_FORMAT))`, source lines 137-138). -/
def write_lastupdated (t : Datetime) : Option (List Char) :=
  some (strftime t)

/-- `open(file_lastupdated, "w")` truncates the file in place immediately;
this is the content observable if the process crashes after the open but
before the write is flushed. The previous content is already gone. -/
def openW_truncated (prev : Option (List Char)) : Option (List Char) :=
  some []

/-- Strict lexicographic order on datetimes (the order Python's `datetime`
comparison implements, at second granularity). -/
def dtLt (a b : Datetime) : Bool :=
  decide (a.year < b.year ∨ (a.year = b.year ∧
    (a.month < b.month ∨ (a.month = b.month ∧
      (a.day < b.day ∨ (a.day = b.day ∧
        (a.hour < b.hour ∨ (a.hour = b.hour ∧
          (a.minute < b.minute ∨ (a.minute = b.minute ∧
            a.second < b.second))))))))))

/-! ### Orchestration model

Times below are `Int` microseconds; `timedelta d` is Python
`timedelta(days=d)`. -/

/-- Microseconds per day; Python `timedelta` is exact at microsecond
resolution. -/
def MICROS_PER_DAY : Int := 86400000000

/-- Python `timedelta(days=d)` as a duration in microseconds. -/
def timedelta (days : Int) : Int := days * MICROS_PER_DAY

/-- The check-due comparison both updaters inline:
`(DT_NOW - timedelta(k)) > dt_lastupdated` (source lines 124 and 152). -/
def isCheckDue (now lastSynced interval : Int) : Bool :=
  decide (now - interval > lastSynced)

/-- Inputs of one streamed download in `get_program` (source lines 96-118):
the declared `content-length` (0 when the header is absent, line 105) and
the number of body bytes the iterator actually yields. -/
structure DownloadEnv where
  contentLength : Nat
  bytesReceived : Nat
deriving DecidableEq

/-- File-system operations `get_program` performs in `INSTALL_DIR`. The
function has no delete operation anywhere in its body, so `deleteArchive` is
never emitted; it exists so that absence of deletion is expressible. -/
inductive FileOp where
  | writeArchive
  | extract
  | deleteArchive
deriving DecidableEq

/-- `get_program(url)` (source lines 96-118): writes the streamed body to
`filepath`, raises `RuntimeError` (modelled `Except.error ()`) when a
non-zero declared length does not match the bytes written (lines 113-114),
otherwise extracts the zip (lines 117-118). Returns the outcome paired with
the file operations performed; the archive file at `filepath` is left in
place on every path. -/
def get_program (env : DownloadEnv) : Except Unit Unit × List FileOp :=
  if env.contentLength ≠ 0 ∧ env.bytesReceived ≠ env.contentLength then
    (.error (), [FileOp.writeArchive])
  else
    (.ok (), [FileOp.writeArchive, FileOp.extract])

/-- How the modelled updater run ends: normal return, or one of the
uncaught exceptions the body can raise. -/
inductive UpdateOutcome where
  | done
  | keyError
  | parseError
  | downloadError
deriving DecidableEq

/-- A HEAD response: `ok` is `response.ok`; `lastModified` is `none` when
the `last-modified` header is absent (so `headers["last-modified"]` raises
`KeyError`), `some none` when it is present but `strptime` raises, and
`some (some lm)` when it parses to the timestamp `lm`. -/
structure Response where
  ok : Bool
  lastModified : Option (Option Int)
deriving DecidableEq

/-- Effects of one `update_program` run. `headRequest`: the HEAD request of
line 126 was issued; `downloaded`: `get_program` was invoked (full GET);
`wroteState`: the timestamp written to `file_lastupdated`, if any. -/
structure UpdateEffects where
  headRequest : Bool
  downloaded : Bool
  wroteState : Option Int
  outcome : UpdateOutcome
deriving DecidableEq

/-- `update_program(url, dt_lastupdated, file_lastupdated)` (source lines
121-138), with the global `DT_NOW` passed explicitly as `now`. -/
def update_program (now lastSynced : Int) (resp : Response)
    (dl : DownloadEnv) : UpdateEffects :=
  if isCheckDue now lastSynced (timedelta 7) then
    if resp.ok then
      match resp.lastModified with
      | none => ⟨true, false, none, .keyError⟩
      | some none => ⟨true, false, none, .parseError⟩
      | some (some lm) =>
        if lm > lastSynced then
          match (get_program dl).1 with
          | .ok _ => ⟨true, true, some now, .done⟩
          | .error _ => ⟨true, true, none, .downloadError⟩
        else ⟨true, false, none, .done⟩
    else ⟨true, false, none, .done⟩
  else ⟨false, false, none, .done⟩

/-- Effects of one `update_trid_defs` run. `delegated`: `subprocess.call`
of `trid.py --update` was invoked; the other fields as in
`UpdateEffects`. -/
structure DefsEffects where
  delegated : Bool
  headRequest : Bool
  wroteState : Option Int
  outcome : UpdateOutcome
deriving DecidableEq

/-- `update_trid_defs()` (source lines 141-165), with the globals passed
explicitly: `defsInstalled` is `os.path.exists(INSTALL_DIR/triddefs.trd)`;
`delegateExit` and `delegateExit2` are the exit statuses of the two
possible `subprocess.call([... trid.py, "--update"])` invocations — the
source discards both return values, and accordingly neither parameter
influences the result. -/
def update_trid_defs (now lastSynced : Int) (defsInstalled : Bool)
    (delegateExit : Int) (resp : Response) (delegateExit2 : Int) : DefsEffects :=
  if !defsInstalled then
    ⟨true, false, some now, .done⟩
  else if isCheckDue now lastSynced (timedelta 2) then
    if resp.ok then
      match resp.lastModified with
      | none => ⟨false, true, none, .keyError⟩
      | some none => ⟨false, true, none, .parseError⟩
      | some (some lm) =>
        if lm > lastSynced then ⟨true, true, some now, .done⟩
        else ⟨false, true, none, .done⟩
    else ⟨false, true, none, .done⟩
  else ⟨false, false, none, .done⟩

/-- How the launcher process ends: `code n` for a plain exit with status
`n`, `raised o` for an uncaught exception propagating out of the updater. -/
inductive ProcExit where
  | code (n : Int)
  | raised ( o : UpdateOutcome)
deriving DecidableEq

/-- Observable result of one `start_program` invocation. -/
structure StartResult where
  downloaded : Bool
  wroteProgState : Option Int
  defs : Option DefsEffects
  ranCommand : Option (List String)
  procExit : ProcExit
deriving DecidableEq

/-- `start_program(command, name, url_program, dt_lastupdated,
file_lastupdated)` (source lines 168-190), with the environment explicit:
`exeExists` is `os.path.exists(command[1])`; `userConfirms` the answer of
`query(...)`; `isTrid` whether `name == "TrID"`; `argv` is `sys.argv`
(line 186 pops its first element, the launcher's own invocation token,
before extending `command`, line 188); `childExit` is the exit status of
the final `subprocess.call(command)`, whose value line 190 discards — the
console-script entry then returns `None`, i.e. exit status 0. -/
def start_program (exeExists userConfirms isTrid : Bool)
    (now lastSynced : Int) (resp : Response) (dl : DownloadEnv)
    (defsInstalled : Bool) (defsLast : Int) (dExit : Int)
    (defsResp : Response) (dExit2 : Int)
    (argv command : List String) (childExit : Int) : StartResult :=
  if !exeExists && !userConfirms then
    ⟨false, none, none, none, .code 1⟩
  else
    let u := update_program now lastSynced resp dl
    if u.outcome = .done then
      if isTrid then
        let d := update_trid_defs now defsLast defsInstalled dExit defsResp dExit2
        if d.outcome = .done then
          ⟨u.downloaded, u.wroteState, some d, some (command ++ argv.drop 1), .code 0⟩
        else
          ⟨u.downloaded, u.wroteState, some d, none, .raised d.outcome⟩
      else
        ⟨u.downloaded, u.wroteState, none, some (command ++ argv.drop 1), .code 0⟩
    else
      ⟨u.downloaded, u.wroteState, none, none, .raised u.outcome⟩

/-- Two consecutive `update_program` invocations with the same `now` (the
module-level `DT_NOW` is computed once per process; two back-to-back
processes observe essentially the same clock). The second run reads the
state file as the first run left it. -/
def runTwice (now lastSynced : Int) (resp1 resp2 : Response)
    (dl1 dl2 : DownloadEnv) : UpdateEffects × UpdateEffects :=
  let u1 := update_program now lastSynced resp1 dl1
  let last2 := match u1.wroteState with
    | some t => t
    | none => lastSynced
  (u1, update_program now last2 resp2 dl2)

/-- Number of network requests an `update_program` run issues (HEAD plus
the streamed GET of `get_program`). -/
def networkCalls (u : UpdateEffects) : Nat :=
  (if u.headRequest then 1 else 0) + (if u.downloaded then 1 else 0)

/-! ### Helper lemmas about the textual timestamp format -/

lemma digitVal_digitChar (k : Nat) (h : k < 10) :
    digitVal (digitChar k) = some k := by
  interval_cases k <;> rfl

lemma parseNum2_pad2 (n : Nat) (rest : List Char) (h : n < 100) :
    parseNum2 (pad2 n ++ rest) = some (n, rest) := by
  have h1 : n / 10 < 10 := by omega
  have h2 : n % 10 < 10 := by omega
  simp only [pad2, List.cons_append, List.nil_append, parseNum2,
    digitVal_digitChar _ h1, digitVal_digitChar _ h2]
  have he : 10 * (n / 10) + n % 10 = n := by omega
  rw [he]

lemma parseNum4_pad4 (n : Nat) (rest : List Char) (h : n < 10000) :
    parseNum4 (pad4 n ++ rest) = some (n, rest) := by
  have h1 : n / 1000 < 10 := by omega
  have h2 : n / 100 % 10 < 10 := by omega
  have h3 : n / 10 % 10 < 10 := by omega
  have h4 : n % 10 < 10 := by omega
  simp only [pad4, List.cons_append, List.nil_append, parseNum4,
    digitVal_digitChar _ h1, digitVal_digitChar _ h2,
    digitVal_digitChar _ h3, digitVal_digitChar _ h4]
  have he : 1000 * (n / 1000) + 100 * (n / 100 % 10) + 10 * (n / 10 % 10) + n % 10 = n := by
    omega
  rw [he]

lemma parseNum2_pad2_nil (n : Nat) (h : n < 100) :
    parseNum2 (pad2 n) = some (n, []) := by
  have := parseNum2_pad2 n [] h
  simpa using this

lemma expectChar_cons (c : Char) (rest : List Char) :
    expectChar c (c :: rest) = some rest := by
  simp [expectChar]

lemma daysInMonth_le (y m : Nat) : daysInMonth y m ≤ 31 := by
  unfold daysInMonth
  split
  · split <;> omega
  · split <;> omega

/-- Writing a representable timestamp in the store's format and parsing it
back is the identity. -/
lemma strptime_strftime (t : Datetime) (h : isRepresentable t = true) :
    strptime (strftime t) = some t := by
  obtain ⟨y, m, d, hh, mi, s⟩ := t
  simp only [isRepresentable, Bool.and_eq_true, decide_eq_true_eq] at h
  obtain ⟨hv, _⟩ := h
  have hb := hv
  simp only [validDatetime, decide_eq_true_eq] at hb
  have hdm := daysInMonth_le y m
  have hm : m < 100 := by omega
  have hd : d < 100 := by omega
  have hy : y < 10000 := by omega
  have hhh : hh < 100 := by omega
  have hmi : mi < 100 := by omega
  have hs : s < 100 := by omega
  simp only [strftime, strptime,
    parseNum2_pad2 _ _ hm, expectChar_cons,
    parseNum2_pad2 _ _ hd, parseNum4_pad4 _ _ hy,
    parseNum2_pad2 _ _ hhh, parseNum2_pad2 _ _ hmi,
    parseNum2_pad2_nil _ hs]
  simp [hv]

/-! ### Claims -/

/-- C1: the freshness decision equals the spec's reference definition: for
every `now`, `lastSynced ≤ now` and `interval ≥ 0`, the check-due decision
is true exactly when `now - lastSynced > interval`; both the 7-day program
check and the 2-day defs check are instances of this decision. -/
theorem freshness_decision_matches_reference
    (now lastSynced interval : Int)
    (hle : lastSynced ≤ now) (hnn : 0 ≤ interval) :
    (isCheckDue now lastSynced interval = true ↔ now - lastSynced > interval) ∧
    (∀ resp dl, (update_program now lastSynced resp dl).headRequest =
      isCheckDue now lastSynced (timedelta 7)) ∧
    (∀ e resp e2, (update_trid_defs now lastSynced true e resp e2).headRequest =
      isCheckDue now lastSynced (timedelta 2)) := by
  refine ⟨?_, ?_, ?_⟩
  · simp only [isCheckDue, decide_eq_true_eq, gt_iff_lt]
    omega
  · intro resp dl
    cases hdue : isCheckDue now lastSynced (timedelta 7)
    · simp [update_program, hdue]
    · obtain ⟨rok, rlm⟩ := resp
      cases rok
      · simp [update_program, hdue]
      · rcases rlm with _ | (_ | lm)
        · simp [update_program, hdue]
        · simp [update_program, hdue]
        · by_cases hlm : lm > lastSynced
          · rcases hget : (get_program dl).1 with u | u <;>
              simp [update_program, hdue, hlm, hget]
          · simp [update_program, hdue, hlm]
  · intro e resp e2
    cases hdue : isCheckDue now lastSynced (timedelta 2)
    · simp [update_trid_defs, hdue]
    · obtain ⟨rok, rlm⟩ := resp
      cases rok
      · simp [update_trid_defs, hdue]
      · rcases rlm with _ | (_ | lm)
        · simp [update_trid_defs, hdue]
        · simp [update_trid_defs, hdue]
        · by_cases hlm : lm > lastSynced
          · simp [update_trid_defs, hdue, hlm]
          · simp [update_trid_defs, hdue, hlm]

/-- Witness for C1 at concrete inputs. -/
theorem freshness_decision_matches_reference_witness :
    (isCheckDue 10 3 5 = true ↔ (10 : Int) - 3 > 5) ∧
    ((update_program 10 3 ⟨true, none⟩ ⟨0, 0⟩).headRequest =
      isCheckDue 10 3 (timedelta 7)) ∧
    ((update_trid_defs 10 3 true 0 ⟨true, none⟩ 0).headRequest =
      isCheckDue 10 3 (timedelta 2)) := by
  have h := freshness_decision_matches_reference 10 3 5 (by decide) (by decide)
  exact ⟨h.1, h.2.1 ⟨true, none⟩ ⟨0, 0⟩, h.2.2 0 ⟨true, none⟩ 0⟩

/-- C10: when the TrID definitions data file is absent, `update_trid_defs`
delegates to `trid.py --update` and then writes the defs state file with
the current time unconditionally — the delegated subprocess's exit status
(`delegateExit`) is never inspected, so the timestamp is recorded even if
the delegated installation failed. -/
theorem defs_absent_writes_state_unconditionally
    (now lastSynced delegateExit e2 : Int) (resp : Response) :
    (update_trid_defs now lastSynced false delegateExit resp e2).delegated = true ∧
    (update_trid_defs now lastSynced false delegateExit resp e2).wroteState = some now ∧
    (update_trid_defs now lastSynced false delegateExit resp e2).outcome = .done := by
  refine ⟨rfl, rfl, rfl⟩

/-- C2 counterexample: a state file with nonempty unparseable content makes
`get_datetime` raise — the `ValueError` from `datetime.strptime` is
uncaught — rather than return the sentinel. -/
theorem get_datetime_unparseable_raises :
    get_datetime (some ['j', 'u', 'n', 'k']) = .error () := rfl

/-- C2 (amended): `get_datetime` returns the sentinel `datetime(1, 1, 1)`
on a missing or empty state file; on nonempty content that does not parse
in the store's format the parse error propagates uncaught (likewise an
unreadable file raises inside `open`, outside this model); and the
sentinel compares strictly below every other valid timestamp. -/
theorem get_datetime_sentinel_spec :
    get_datetime none = .ok sentinelDT ∧
    (∀ s : List Char, s.length = 0 → get_datetime (some s) = .ok sentinelDT) ∧
    (∀ s : List Char, s ≠ [] → strptime s = none → get_datetime (some s) = .error ()) ∧
    (∀ t : Datetime,
      validDatetime t.year t.month t.day t.hour t.minute t.second = true →
      t ≠ sentinelDT → dtLt sentinelDT t = true) := by
  refine ⟨rfl, ?_, ?_, ?_⟩
  · intro s hs
    simp [get_datetime, hs]
  · intro s hne hp
    have hlen : s.length ≠ 0 := by
      simpa [List.length_eq_zero] using hne
    simp [get_datetime, hlen, hp]
  · intro t hv hne
    rcases t with ⟨y, m, d, h, mi, s⟩
    simp only [validDatetime, decide_eq_true_eq] at hv
    simp only [sentinelDT, ne_eq, Datetime.mk.injEq] at hne
    simp only [dtLt, sentinelDT, decide_eq_true_eq]
    omega

/-- Witness for C2 (amended) at concrete inputs. -/
theorem get_datetime_sentinel_spec_witness :
    get_datetime (some []) = .ok sentinelDT ∧
    get_datetime (some ['x']) = .error () ∧
    dtLt sentinelDT ⟨2026, 1, 1, 0, 0, 0⟩ = true := by
  refine ⟨get_datetime_sentinel_spec.2.1 [] rfl,
    get_datetime_sentinel_spec.2.2.1 ['x'] (by decide) rfl,
    get_datetime_sentinel_spec.2.2.2 ⟨2026, 1, 1, 0, 0, 0⟩ (by decide) (by decide)⟩

/-- C7 counterexample: the state write opens the file with mode `"w"`,
truncating in place — there is no temp-file-then-rename — so a crash
between the open and the flush leaves an empty file, and the next read
yields the sentinel, not the previously stored timestamp. -/
theorem crash_write_loses_previous_value :
    get_datetime ( openW_truncated (write_lastupdated ⟨2024, 5, 1, 12, 0, 0⟩)) =
      .ok sentinelDT ∧
    sentinelDT ≠ (⟨2024, 5, 1, 12, 0, 0⟩ : Datetime) := ⟨rfl, by decide⟩

/-- C7 (amended): writing a representable timestamp and then reading the
state file yields the same timestamp; but the write is not
crash-atomic: a crash that interrupts the truncating write leaves an empty
file, after which a read yields the sentinel — never the previous value. -/
theorem timestamp_roundtrip_and_crash (t : Datetime)
    (h : isRepresentable t = true) (prev : Option (List Char)) :
    get_datetime (write_lastupdated t) = .ok t ∧
    get_datetime ( openW_truncated prev) = .ok sentinelDT := by
  constructor
  · have hr := strptime_strftime t h
    have hlen : (strftime t).length ≠ 0 := by
      simp [strftime, pad2]
    simp [get_datetime, write_lastupdated, hlen, hr]
  · rfl

/-- Witness for C7 (amended) at a concrete timestamp. -/
theorem timestamp_roundtrip_and_crash_witness :
    get_datetime (write_lastupdated ⟨2026, 10, 12, 3, 4, 5⟩) =
      .ok ⟨2026, 10, 12, 3, 4, 5⟩ ∧
    get_datetime ( openW_truncated none) = .ok sentinelDT :=
  timestamp_roundtrip_and_crash ⟨2026, 10, 12, 3, 4, 5⟩ (by decide) none

/-- C3 counterexample: with the check due and a successful HEAD response
that lacks a `last-modified` header, `update_program` raises an uncaught
`KeyError` instead of treating the probe result as "no update
available". -/
theorem probe_missing_header_raises :
    (update_program (timedelta 8) 0 ⟨true, none⟩ ⟨0, 0⟩).outcome = .keyError ∧
    UpdateOutcome.keyError ≠ UpdateOutcome.done := ⟨rfl, by decide⟩

/-- C3 (amended): with the check due, a non-success HEAD response is
indeed treated as "no update available" (no fetch, no error, no state
write); but a successful response with a missing `last-modified` header
raises `KeyError`, and one whose header does not parse raises
`ValueError` — both uncaught, though in every one of these cases no fetch
occurs and the state file is untouched. -/
theorem probe_failure_modes (now lastSynced : Int) (dl : DownloadEnv)
    (hdue : isCheckDue now lastSynced (timedelta 7) = true) :
    (∀ lm, update_program now lastSynced ⟨false, lm⟩ dl =
      ⟨true, false, none, .done⟩) ∧
    (update_program now lastSynced ⟨true, none⟩ dl =
      ⟨true, false, none, .keyError⟩) ∧
    (update_program now lastSynced ⟨true, some none⟩ dl =
      ⟨true, false, none, .parseError⟩) := by
  refine ⟨fun lm => ?_, ?_, ?_⟩ <;> simp [update_program, hdue]

/-- Witness for C3 (amended) at concrete inputs. -/
theorem probe_failure_modes_witness :
    update_program (timedelta 8) 0 ⟨false, none⟩ ⟨0, 0⟩ =
      ⟨true, false, none, .done⟩ ∧
    update_program (timedelta 8) 0 ⟨true, some none⟩ ⟨0, 0⟩ =
      ⟨true, false, none, .parseError⟩ := by
  have h := probe_failure_modes (timedelta 8) 0 ⟨0, 0⟩ (by decide)
  exact ⟨h.1 none, h.2.2⟩

/-- C4 counterexample: tool absent, user confirms the install, the probe
returns a non-success response — and no download occurs at all: the first
install is not unconditional, and the launcher then goes on to exec the
still-missing tool. -/
theorem first_install_skipped_on_probe_failure :
    (start_program false true false (timedelta 8) 0 ⟨false, none⟩ ⟨1000, 1000⟩
      true 0 0 ⟨false, none⟩ 0 [r"tridirt"] [r"python", r"trid.py"] 0).downloaded
      = false ∧
    (start_program false true false (timedelta 8) 0 ⟨false, none⟩ ⟨1000, 1000⟩
      true 0 0 ⟨false, none⟩ 0 [r"tridirt"] [r"python", r"trid.py"] 0).ranCommand
      = some [r"python", r"trid.py"] := ⟨rfl, rfl⟩

/-- C4 (amended): a confirmed first install goes through the ordinary
update path rather than fetching unconditionally: with the sentinel state
the check is due, and the archive is downloaded, extracted and the state
file written with `now` only when the probe succeeds with a last-modified
newer than the recorded state and the download completes — after which the
tool is launched; when the probe returns a non-success response, no fetch
happens at all. -/
theorem first_install_is_probe_gated
    (now lastSynced lm : Int) (dl : DownloadEnv)
    (argv command : List String) (childExit : Int)
    (hdue : isCheckDue now lastSynced (timedelta 7) = true)
    (hnew : lm > lastSynced)
    (hfetch : (get_program dl).1 = .ok ()) :
    ((start_program false true false now lastSynced ⟨true, some (some lm)⟩ dl
        true 0 0 ⟨false, none⟩ 0 argv command childExit).downloaded = true ∧
     (start_program false true false now lastSynced ⟨true, some (some lm)⟩ dl
        true 0 0 ⟨false, none⟩ 0 argv command childExit).wroteProgState = some now ∧
     (start_program false true false now lastSynced ⟨true, some (some lm)⟩ dl
        true 0 0 ⟨false, none⟩ 0 argv command childExit).ranCommand =
        some (command ++ argv.drop 1) ∧
     (start_program false true false now lastSynced ⟨true, some (some lm)⟩ dl
        true 0 0 ⟨false, none⟩ 0 argv command childExit).procExit = .code 0) ∧
    (∀ rlm, (start_program false true false now lastSynced ⟨false, rlm⟩ dl
        true 0 0 ⟨false, none⟩ 0 argv command childExit).downloaded = false) := by
  constructor
  · refine ⟨?_, ?_, ?_, ?_⟩ <;>
      simp [start_program, update_program, hdue, hnew, hfetch]
  · intro rlm
    simp [start_program, update_program, hdue]

/-- Witness for C4 (amended) at concrete inputs. -/
theorem first_install_is_probe_gated_witness :
    (start_program false true false (timedelta 8) 0 ⟨true, some (some 1)⟩ ⟨5, 5⟩
      true 0 0 ⟨false, none⟩ 0 [r"tridirt", r"f.bin"] [r"python", r"trid.py"]
      0).downloaded = true ∧
    (start_program false true false (timedelta 8) 0 ⟨true, some (some 1)⟩ ⟨5, 5⟩
      true 0 0 ⟨false, none⟩ 0 [r"tridirt", r"f.bin"] [r"python", r"trid.py"]
      0).ranCommand = some [r"python", r"trid.py", r"f.bin"] := by
  have h := first_install_is_probe_gated (timedelta 8) 0 1 ⟨5, 5⟩
    [r"tridirt", r"f.bin"] [r"python", r"trid.py"] 0
    (by decide) (by decide) rfl
  exact ⟨h.1.1, h.1.2.2.1⟩

/-- C5 counterexample: a download with declared content length 1000 but
only 900 bytes received raises the incomplete-download `RuntimeError`, yet
the archive file is not discarded — no path of `get_program` deletes it. -/
theorem incomplete_download_archive_kept :
    (get_program ⟨1000, 900⟩).1 = .error () ∧
    FileOp.deleteArchive ∉ (get_program ⟨1000, 900⟩).2 := by
  exact ⟨rfl, by decide⟩

/-- C5 (amended): the declared-length check holds — a non-zero declared
content length that differs from the bytes written raises `RuntimeError`
before any extraction — but the downloaded archive file is never deleted
on any exit path, success or failure: the source contains no removal
call. -/
theorem incomplete_download_check_no_cleanup (dl : DownloadEnv) :
    (dl.contentLength ≠ 0 → dl.bytesReceived ≠ dl.contentLength →
      get_program dl = (.error (), [FileOp.writeArchive])) ∧
    ((dl.contentLength = 0 ∨ dl.bytesReceived = dl.contentLength) →
      get_program dl = (.ok (), [FileOp.writeArchive, FileOp.extract])) ∧
    FileOp.deleteArchive ∉ (get_program dl).2 := by
  obtain ⟨cl, br⟩ := dl
  by_cases h : cl ≠ 0 ∧ br ≠ cl
  · refine ⟨fun _ _ => ?_, fun hc => ?_, ?_⟩
    · simp [get_program, h]
    · exact absurd hc (by tauto)
    · simp [get_program, h]
  · refine ⟨fun h1 h2 => absurd ⟨h1, h2⟩ h, fun _ => ?_, ?_⟩
    · simp [get_program, h]
    · simp [get_program, h]

/-- Witness for C5 (amended) at concrete inputs. -/
theorem incomplete_download_check_no_cleanup_witness :
    get_program ⟨1000, 1000⟩ = (.ok (), [FileOp.writeArchive, FileOp.extract]) ∧
    get_program ⟨700, 300⟩ = (.error (), [FileOp.writeArchive]) ∧
    FileOp.deleteArchive ∉ (get_program ⟨700, 300⟩).2 := by
  have h1 := incomplete_download_check_no_cleanup ⟨1000, 1000⟩
  have h2 := incomplete_download_check_no_cleanup ⟨700, 300⟩
  exact ⟨h1.2.1 (Or.inr rfl), h2.1 (by decide) (by decide), h2.2.2⟩

/-- C6 counterexample: the child process's exit status is discarded —
`subprocess.call(command)`'s return value is unused and the entry point
returns `None` — so a child exiting with status 5 still yields launcher
exit status 0, even though the arguments were forwarded correctly. -/
theorem child_exit_status_dropped :
    (start_program true true false 0 0 ⟨true, none⟩ ⟨0, 0⟩ true 0 0 ⟨true, none⟩ 0
      [r"tridirt", r"sample.bin"] [r"python", r"trid.py"] 5).procExit = .code 0 ∧
    (start_program true true false 0 0 ⟨true, none⟩ ⟨0, 0⟩ true 0 0 ⟨true, none⟩ 0
      [r"tridirt", r"sample.bin"] [r"python", r"trid.py"] 5).ranCommand =
      some [r"python", r"trid.py", r"sample.bin"] ∧
    ProcExit.code 0 ≠ ProcExit.code 5 := ⟨rfl, rfl, by decide⟩

/-- C6 (amended): when the updater returns normally, the launcher executes
the local tool with the caller's arguments forwarded minus the launcher's
own invocation token — but the child's exit status is not propagated: the
launcher's own exit status is 0 whatever the child returned. -/
theorem launch_forwards_args_drops_child_exit
    (now lastSynced : Int) (resp : Response) (dl : DownloadEnv)
    (argv command : List String) (childExit : Int)
    (hdone : (update_program now lastSynced resp dl).outcome = .done) :
    (start_program true true false now lastSynced resp dl true 0 0 ⟨true, none⟩ 0
      argv command childExit).ranCommand = some (command ++ argv.drop 1) ∧
    (start_program true true false now lastSynced resp dl true 0 0 ⟨true, none⟩ 0
      argv command childExit).procExit = .code 0 := by
  constructor <;> simp [start_program, hdone]

/-- Witness for C6 (amended) at concrete inputs. -/
theorem launch_forwards_args_drops_child_exit_witness :
    (start_program true true false 0 0 ⟨true, none⟩ ⟨0, 0⟩ true 0 0 ⟨true, none⟩ 0
      [r"tridirt"] [r"python"] 7).ranCommand = some [r"python"] ∧
    (start_program true true false 0 0 ⟨true, none⟩ ⟨0, 0⟩ true 0 0 ⟨true, none⟩ 0
      [r"tridirt"] [r"python"] 7).procExit = .code 0 := by
  have h := launch_forwards_args_drops_child_exit 0 0 ⟨true, none⟩ ⟨0, 0⟩
    [r"tridirt"] [r"python"] 7 (by decide)
  exact ⟨h.1, h.2⟩

/-- C8 counterexample: with the defs data file absent, the delegated
`trid.py --update` exits with status 1 — a failed install — yet the defs
timestamp file is still written with `now`: SyncState is mutated despite
the failure. -/
theorem defs_state_written_despite_failed_delegate :
    (update_trid_defs 0 0 false 1 ⟨false, none⟩ 0).wroteState = some 0 ∧
    (1 : Int) ≠ 0 := ⟨rfl, by decide⟩

/-- C8 (amended): `update_program` writes its state file only after a
successful download and extraction — a failed probe, a failed download,
and a probe that finds the copy current all leave it unwritten;
`update_trid_defs`, by contrast, writes its state file after delegating to
`trid.py --update` without inspecting the delegate's exit status, on both
of its delegation paths, so a failed delegated install still records the
timestamp. -/
theorem state_write_only_paths (now lastSynced : Int) (resp : Response)
    (dl : DownloadEnv) (e e2 : Int) :
    ((update_program now lastSynced resp dl).wroteState ≠ none →
      (update_program now lastSynced resp dl).downloaded = true ∧
      (update_program now lastSynced resp dl).outcome = .done ∧
      (get_program dl).1 = .ok ()) ∧
    ((update_trid_defs now lastSynced false e resp e2).wroteState = some now) ∧
    ((update_trid_defs now lastSynced true e resp e2).wroteState ≠ none →
      (update_trid_defs now lastSynced true e resp e2).delegated = true) := by
  obtain ⟨rok, rlm⟩ := resp
  refine ⟨?_, rfl, ?_⟩
  · intro h
    cases hdue : isCheckDue now lastSynced (timedelta 7)
    · simp [update_program, hdue] at h
    · cases rok
      · simp [update_program, hdue] at h
      · rcases rlm with _ | (_ | lm)
        · simp [update_program, hdue] at h
        · simp [update_program, hdue] at h
        · by_cases hlm : lm > lastSynced
          · rcases hget : (get_program dl).1 with u | u
            · simp [update_program, hdue, hlm, hget] at h
            · cases u
              refine ⟨?_, ?_, rfl⟩ <;>
                simp [update_program, hdue, hlm, hget]
          · simp [update_program, hdue, hlm] at h
  · intro h
    cases hdue : isCheckDue now lastSynced (timedelta 2)
    · simp [update_trid_defs, hdue] at h
    · cases rok
      · simp [update_trid_defs, hdue] at h
      · rcases rlm with _ | (_ | lm)
        · simp [update_trid_defs, hdue] at h
        · simp [update_trid_defs, hdue] at h
        · by_cases hlm : lm > lastSynced
          · simp [update_trid_defs, hdue, hlm]
          · simp [update_trid_defs, hdue, hlm] at h

/-- Witness for C8 (amended) at concrete inputs. -/
theorem state_write_only_paths_witness :
    ((update_program (timedelta 8) 0 ⟨true, some (some 1)⟩ ⟨0, 0⟩).downloaded = true ∧
     (update_program (timedelta 8) 0 ⟨true, some (some 1)⟩ ⟨0, 0⟩).outcome = .done ∧
     (get_program ⟨0, 0⟩).1 = .ok ()) ∧
    (update_trid_defs (timedelta 3) 0 true 0 ⟨true, some (some 1)⟩ 0).delegated =
      true := by
  refine ⟨(state_write_only_paths (timedelta 8) 0 ⟨true, some (some 1)⟩ ⟨0, 0⟩ 0 0).1
      (by decide),
    (state_write_only_paths (timedelta 3) 0 ⟨true, some (some 1)⟩ ⟨0, 0⟩ 0 0).2.2
      (by decide)⟩

/-- C9 counterexample: a tool that is already up to date (remote
last-modified not newer than the recorded state) but whose check interval
has elapsed: the first run probes and writes nothing, so a second run with
the same `now` probes again — two network calls in total, not at most
one. -/
theorem two_runs_probe_twice :
    1 < networkCalls (runTwice (timedelta 8) 0 ⟨true, some (some 0)⟩
        ⟨true, some (some 0)⟩ ⟨0, 0⟩ ⟨0, 0⟩).1 +
      networkCalls (runTwice (timedelta 8) 0 ⟨true, some (some 0)⟩
        ⟨true, some (some 0)⟩ ⟨0, 0⟩ ⟨0, 0⟩).2 := by
  decide

/-- C9 (amended): the at-most-one-call bound holds only on the fast path:
if the interval has not elapsed, both runs make zero network calls, and if
the first run wrote the state with `now`, the second run makes zero calls;
but a due check whose probe finds the copy current writes nothing, so the
following run probes again (see the counterexample). -/
theorem repeat_invocation_fast_path (now lastSynced : Int)
    (resp1 resp2 : Response) (dl1 dl2 : DownloadEnv) :
    (isCheckDue now lastSynced (timedelta 7) = false →
      networkCalls (runTwice now lastSynced resp1 resp2 dl1 dl2).1 +
        networkCalls (runTwice now lastSynced resp1 resp2 dl1 dl2).2 = 0) ∧
    ((runTwice now lastSynced resp1 resp2 dl1 dl2).1.wroteState = some now →
      networkCalls (runTwice now lastSynced resp1 resp2 dl1 dl2).2 = 0) := by
  have hself : isCheckDue now now (timedelta 7) = false := by
    simp only [isCheckDue, timedelta, MICROS_PER_DAY, decide_eq_false_iff_not]
    omega
  constructor
  · intro hdue
    simp [runTwice, update_program, hdue, networkCalls]
  · intro h
    simp only [runTwice] at h ⊢
    rw [h]
    simp [update_program, hself, networkCalls]

/-- Witness for C9 (amended) at concrete inputs. -/
theorem repeat_invocation_fast_path_witness :
    (networkCalls (runTwice 0 0 ⟨true, none⟩ ⟨true, none⟩ ⟨0, 0⟩ ⟨0, 0⟩).1 +
      networkCalls (runTwice 0 0 ⟨true, none⟩ ⟨true, none⟩ ⟨0, 0⟩ ⟨0, 0⟩).2 = 0) ∧
    networkCalls (runTwice (timedelta 8) 0 ⟨true, some (some 1)⟩
      ⟨true, some (some 1)⟩ ⟨0, 0⟩ ⟨0, 0⟩).2 = 0 := by
  refine ⟨(repeat_invocation_fast_path 0 0 ⟨true, none⟩ ⟨true, none⟩ ⟨0, 0⟩
      ⟨0, 0⟩).1 (by decide),
    (repeat_invocation_fast_path (timedelta 8) 0 ⟨true, some (some 1)⟩
      ⟨true, some (some 1)⟩ ⟨0, 0⟩ ⟨0, 0⟩).2 (by decide)⟩

end Tridirt
